import Mathlib

/-! Shallow embedding of `src/restream_app.py`, a Kick-to-YouTube restream
supervisor.  The module-level `state` dictionary, the `procs` dictionary and
the `stream_loop` local `stream_start_time` are gathered into one `AppState`
record.  Wall-clock times are naturals; the nondeterministic environment of a
loop iteration (current time, whether the relay process died since the last
iteration, the outcome of `get_hls_url`, and whether `subprocess.Popen`
succeeds) is a `TickInput`.  One iteration of the `while state["running"]`
body is the function `tick`; `run` folds it over an input sequence, skipping
iterations once `running` is false exactly as the `while` guard does.
Python truthiness tests on numeric timestamps (`if state["start_time"]`,
`if stream_start_time and ...`) are modelled by the explicit `0 < t` tests in
`durationOf` and `shortSession`.  To make orphaned OS processes observable,
the model counts (in `orphans`) every process whose handle is overwritten in
the `procs` dictionary while still alive; `aliveCount` is the number of
ffmpeg child processes currently alive. -/

set_option autoImplicit false

namespace Restream

/-- Timing constants, lines 34-41 of the source. -/
def OFFLINE_CHECK : Nat := 30

def LIVE_CHECK : Nat := 10

def FFMPEG_RESTART_DELAY : Nat := 3

def MAX_RESTARTS : Nat := 3

def CRASH_WINDOW : Nat := 600

def MIN_STREAM_DURATION : Nat := 120

def URL_REFRESH_INTERVAL : Nat := 540

def YT_RTMP : String := "rtmp://a.rtmp.youtube.com/live2/"

/-- `state["config"]`: the two persisted settings. -/
structure Config where
  kick_url : String
  yt_key : String
deriving DecidableEq

/-- Liveness of the ffmpeg child process: `poll() is None` is `alive`. -/
inductive ProcState where
  | alive
  | dead
deriving DecidableEq

/-- The mutable program state: the module dictionary `state` (lines 21-29),
the `procs` dictionary (at most the single key `"ffmpeg"`), the
`stream_start_time` local of `stream_loop`, and the orphan counter of the
model (processes left alive with no handle; the real code can only create one
by overwriting a live `procs["ffmpeg"]` entry). -/
structure AppState where
  running : Bool
  is_live : Bool
  start_time : Option Nat
  restarts : Nat
  crash_times : List Nat
  config : Config
  ffmpeg : Option ProcState
  stream_start_time : Option Nat
  orphans : Nat
deriving DecidableEq

/-- Fresh application state (lines 21-29: everything cleared, config loaded). -/
def initState (cfg : Config) : AppState :=
  { running := false
    is_live := false
    start_time := none
    restarts := 0
    crash_times := []
    config := cfg
    ffmpeg := none
    stream_start_time := none
    orphans := 0 }

/-- Number of ffmpeg child processes currently alive: the dictionary entry if
it is alive, plus any orphans. -/
def aliveCount (s : AppState) : Nat :=
  (if s.ffmpeg = some ProcState.alive then 1 else 0) + s.orphans

/-- `build_cmd` (lines 70-80): the ffmpeg launch command; the destination is
the RTMP endpoint template concatenated with the YouTube key. -/
def build_cmd (hls_url yt_key : String) : List String :=
  ["ffmpeg", "-hide_banner", "-loglevel", "warning",
   "-re", "-i", hls_url,
   "-c:v", "h264_amf",
   "-b:v", "6000k", "-minrate", "6000k", "-maxrate", "6000k",
   "-bufsize", "6000k",
   "-r", "30", "-g", "60",
   "-c:a", "aac", "-b:a", "192k",
   "-f", "flv",
   YT_RTMP ++ yt_key]

/-- Observable outcome of a `start_ffmpeg` call: the Python return value, the
command composed for `Popen` (if any), and the log message emitted. -/
structure LaunchOut where
  ok : Bool
  cmd : Option (List String)
  logMsg : String
deriving DecidableEq

/-- `start_ffmpeg` (lines 82-102).  An empty key logs, sets `running` false
and returns `False` before composing any command.  Otherwise the command is
composed and `Popen` is attempted: `spawnOk = false` is the
`FileNotFoundError` path (ffmpeg binary missing), which also sets `running`
false and leaves `procs` untouched.  On success the new process handle
overwrites `procs["ffmpeg"]`; overwriting a still-alive handle would orphan
that process. -/
def start_ffmpeg (s : AppState) (hls_url : String) (spawnOk : Bool) :
    AppState × LaunchOut :=
  if s.config.yt_key = "" then
    ({ s with running := false },
     { ok := false, cmd := none,
       logMsg := "No YouTube key set - open Settings first" })
  else
    let c := build_cmd hls_url s.config.yt_key
    if spawnOk then
      ({ s with
          ffmpeg := some ProcState.alive
          orphans := s.orphans +
            (if s.ffmpeg = some ProcState.alive then 1 else 0) },
       { ok := true, cmd := some c, logMsg := "FFmpeg started" })
    else
      ({ s with running := false },
       { ok := false, cmd := some c,
         logMsg := "FFmpeg not found! Install it and add to PATH." })

/-- `stop_ffmpeg` (lines 104-112): terminate (grace then kill) every process
in `procs`, then clear the dictionary.  After it returns the dictionary entry
is gone and that process is dead. -/
def stop_ffmpeg (s : AppState) : AppState :=
  { s with ffmpeg := none }

/-- The prune step of the crash ledger (line 153): keep only failures
strictly younger than `CRASH_WINDOW` seconds. -/
def pruneLedger (now : Nat) (ts : List Nat) : List Nat :=
  ts.filter (fun t => decide (now - t < CRASH_WINDOW))

/-- `countWithinWindow`: the ledger is pruned (as a side effect in the
source) and the remaining entries are counted. -/
def countWithinWindow (now : Nat) (ts : List Nat) : Nat :=
  (pruneLedger now ts).length

/-- `recordFailure` (lines 153-154): prune, then append the new failure. -/
def recordFailure (now : Nat) (ts : List Nat) : List Nat :=
  pruneLedger now ts ++ [now]

/-- `duration` at line 136: `int(time.time() - start_time) if start_time
else 0`; a `None` (or zero, by Python truthiness) start time gives 0. -/
def durationOf (st : Option Nat) (now : Nat) : Nat :=
  match st with
  | some t => if 0 < t then now - t else 0
  | none => 0

/-- The guard at line 164: `stream_start_time and (now - stream_start_time)
< MIN_STREAM_DURATION`, with Python truthiness on the timestamp. -/
def shortSession (sst : Option Nat) (now : Nat) : Bool :=
  match sst with
  | some t0 => decide (0 < t0) && decide (now - t0 < MIN_STREAM_DURATION)
  | none => false

/-- Environment of one loop iteration: the wall clock, whether the relay
process died since the previous iteration, the result of `get_hls_url` if it
is called this iteration (`none` is offline/probe failure), and whether a
`Popen` attempted this iteration succeeds. -/
structure TickInput where
  now : Nat
  dies : Bool
  probe : Option String
  spawnOk : Bool
deriving DecidableEq

/-- Observable actions of one loop iteration: whether `get_hls_url` was
called, whether a relay launch was attempted, and the sleep ending the
iteration (`none` when the loop `return`s). -/
structure TickOut where
  probed : Bool
  launched : Bool
  sleep : Option Nat
deriving DecidableEq

/-- A relay death between iterations marks the dictionary handle dead. -/
def applyDeath (s : AppState) (dies : Bool) : AppState :=
  if dies then { s with ffmpeg := s.ffmpeg.map (fun _ => ProcState.dead) }
  else s

/-- Lines 135-150: the relay is alive.  If the elapsed time crosses a
`URL_REFRESH_INTERVAL` boundary (within `LIVE_CHECK`), re-probe; on a fresh
URL stop the old relay, pause, and launch a new one.  `start_time` is not
touched anywhere in this branch. -/
def liveHealthyTick (s : AppState) (inp : TickInput) : AppState × TickOut :=
  let duration := durationOf s.start_time inp.now
  if 0 < duration ∧ duration % URL_REFRESH_INTERVAL < LIVE_CHECK then
    match inp.probe with
    | some url =>
        ((start_ffmpeg (stop_ffmpeg s) url inp.spawnOk).1,
         { probed := true, launched := true, sleep := some LIVE_CHECK })
    | none =>
        (s, { probed := true, launched := false, sleep := some LIVE_CHECK })
  else
    (s, { probed := false, launched := false, sleep := some LIVE_CHECK })

/-- Lines 152-186: the relay is dead.  Record the failure; three failures in
the window halt everything (the loop `return`s); a session shorter than
`MIN_STREAM_DURATION` goes back offline without a restart; otherwise bump
`restarts`, re-probe, and relaunch or go offline. -/
def deadTick (s : AppState) (inp : TickInput) : AppState × TickOut :=
  let ct := recordFailure inp.now s.crash_times
  let s1 := { s with crash_times := ct }
  if MAX_RESTARTS ≤ ct.length then
    ({ stop_ffmpeg s1 with is_live := false, running := false },
     { probed := false, launched := false, sleep := none })
  else if shortSession s1.stream_start_time inp.now then
    ({ stop_ffmpeg s1 with is_live := false },
     { probed := false, launched := false, sleep := some OFFLINE_CHECK })
  else
    let s2 := { s1 with restarts := s1.restarts + 1 }
    match inp.probe with
    | some url =>
        ((start_ffmpeg s2 url inp.spawnOk).1,
         { probed := true, launched := true, sleep := some LIVE_CHECK })
    | none =>
        ({ stop_ffmpeg s2 with is_live := false },
         { probed := true, launched := false, sleep := some LIVE_CHECK })

/-- Lines 188-213: no live relay handle.  Probe; a URL while not live starts
a new session (timers set to now, counters cleared, relay launched); no URL
while flagged live ends the session; otherwise idle for `OFFLINE_CHECK`. -/
def probeTick (s : AppState) (inp : TickInput) : AppState × TickOut :=
  match inp.probe, s.is_live with
  | some url, false =>
      let s1 := { s with
        is_live := true
        start_time := some inp.now
        stream_start_time := some inp.now
        restarts := 0
        crash_times := [] }
      ((start_ffmpeg s1 url inp.spawnOk).1,
       { probed := true, launched := true, sleep := some LIVE_CHECK })
  | none, true =>
      ({ stop_ffmpeg s with
          is_live := false
          start_time := none
          stream_start_time := none },
       { probed := true, launched := false, sleep := some OFFLINE_CHECK })
  | _, _ =>
      (s, { probed := true, launched := false, sleep := some OFFLINE_CHECK })

/-- One iteration of the `while state["running"]` body (lines 131-213):
apply any relay death, then dispatch on `is_live and procs.get("ffmpeg")`
and on `proc.poll()`. -/
def tick (s0 : AppState) (inp : TickInput) : AppState × TickOut :=
  let s := applyDeath s0 inp.dies
  if s.is_live && s.ffmpeg.isSome then
    if s.ffmpeg = some ProcState.alive then liveHealthyTick s inp
    else deadTick s inp
  else probeTick s inp

/-- The `while` guard: an iteration body runs only while `running` holds. -/
def loopStep (s : AppState) (inp : TickInput) : AppState :=
  if s.running then (tick s inp).1 else s

/-- The supervisor loop over a sequence of iteration environments. -/
def run (s : AppState) (l : List TickInput) : AppState :=
  l.foldl loopStep s

/-- `API.start` (lines 216-223): only from a non-running state; resets the
restart counter and the crash ledger and spawns the loop. -/
def API.start (s : AppState) : AppState × String :=
  if s.running then (s, "already running")
  else ({ s with running := true, restarts := 0, crash_times := [] },
        "started")

/-- `API.stop` (lines 225-232): clear `running`, terminate and clear the
relay, clear the live flag and the session timer, log, return `"stopped"`. -/
def API.stop (s : AppState) : AppState × String :=
  let s1 := stop_ffmpeg { s with running := false }
  ({ s1 with is_live := false, start_time := none }, "stopped")

/-- One entry of `state["logs"]`. -/
structure LogEntry where
  time : String
  msg : String
  level : String
deriving DecidableEq

/-- The buffer update in `log` (lines 45-47): append, then drop the oldest
entry if the buffer now exceeds 200. -/
def logAppend (logs : List LogEntry) (e : LogEntry) : List LogEntry :=
  let l := logs ++ [e]
  if 200 < l.length then l.drop 1 else l

/-- `log` (lines 43-54).  The UI notification `window.evaluate_js` sits in a
`try/except: pass`; its outcome (`notifyResult`) has no effect on the buffer
and no failure escapes. -/
def log (logs : List LogEntry) (e : LogEntry)
    (notifyResult : Except String Unit) : List LogEntry :=
  let r := logAppend logs e
  match notifyResult with
  | Except.ok _ => r
  | Except.error _ => r

/-- A session-start iteration: not live, and the probe returned a URL. -/
def isSessionStart (s : AppState) (inp : TickInput) : Bool :=
  !s.is_live && inp.probe.isSome

/-- A source-end iteration: flagged live with no relay handle, probe empty. -/
def isSourceEnd (s : AppState) (inp : TickInput) : Bool :=
  s.is_live && s.ffmpeg.isNone && inp.probe.isNone

/-! Helper lemmas: projections through `applyDeath`, `start_ffmpeg` and
`stop_ffmpeg`, and freezing of the loop once `running` is false. -/

@[simp] lemma applyDeath_is_live (s : AppState) (d : Bool) :
    (applyDeath s d).is_live = s.is_live := by
  cases d <;> simp [applyDeath]

@[simp] lemma applyDeath_running (s : AppState) (d : Bool) :
    (applyDeath s d).running = s.running := by
  cases d <;> simp [applyDeath]

@[simp] lemma applyDeath_start_time (s : AppState) (d : Bool) :
    (applyDeath s d).start_time = s.start_time := by
  cases d <;> simp [applyDeath]

@[simp] lemma applyDeath_restarts (s : AppState) (d : Bool) :
    (applyDeath s d).restarts = s.restarts := by
  cases d <;> simp [applyDeath]

@[simp] lemma applyDeath_crash_times (s : AppState) (d : Bool) :
    (applyDeath s d).crash_times = s.crash_times := by
  cases d <;> simp [applyDeath]

@[simp] lemma applyDeath_config (s : AppState) (d : Bool) :
    (applyDeath s d).config = s.config := by
  cases d <;> simp [applyDeath]

@[simp] lemma applyDeath_sst (s : AppState) (d : Bool) :
    (applyDeath s d).stream_start_time = s.stream_start_time := by
  cases d <;> simp [applyDeath]

@[simp] lemma applyDeath_orphans (s : AppState) (d : Bool) :
    (applyDeath s d).orphans = s.orphans := by
  cases d <;> simp [applyDeath]

@[simp] lemma applyDeath_ffmpeg_isSome (s : AppState) (d : Bool) :
    (applyDeath s d).ffmpeg.isSome = s.ffmpeg.isSome := by
  cases d <;> cases hf : s.ffmpeg <;> simp [applyDeath, hf]

@[simp] lemma start_ffmpeg_is_live (s : AppState) (u : String) (ok : Bool) :
    (start_ffmpeg s u ok).1.is_live = s.is_live := by
  by_cases h : s.config.yt_key = "" <;> cases ok <;> simp [start_ffmpeg, h]

@[simp] lemma start_ffmpeg_start_time (s : AppState) (u : String) (ok : Bool) :
    (start_ffmpeg s u ok).1.start_time = s.start_time := by
  by_cases h : s.config.yt_key = "" <;> cases ok <;> simp [start_ffmpeg, h]

@[simp] lemma start_ffmpeg_sst (s : AppState) (u : String) (ok : Bool) :
    (start_ffmpeg s u ok).1.stream_start_time = s.stream_start_time := by
  by_cases h : s.config.yt_key = "" <;> cases ok <;> simp [start_ffmpeg, h]

@[simp] lemma start_ffmpeg_restarts (s : AppState) (u : String) (ok : Bool) :
    (start_ffmpeg s u ok).1.restarts = s.restarts := by
  by_cases h : s.config.yt_key = "" <;> cases ok <;> simp [start_ffmpeg, h]

@[simp] lemma start_ffmpeg_crash_times (s : AppState) (u : String) (ok : Bool) :
    (start_ffmpeg s u ok).1.crash_times = s.crash_times := by
  by_cases h : s.config.yt_key = "" <;> cases ok <;> simp [start_ffmpeg, h]

@[simp] lemma start_ffmpeg_config (s : AppState) (u : String) (ok : Bool) :
    (start_ffmpeg s u ok).1.config = s.config := by
  by_cases h : s.config.yt_key = "" <;> cases ok <;> simp [start_ffmpeg, h]

/-- Once `running` is false, the `while` guard fails and the loop body never
runs again: the state is frozen for every further input sequence. -/
lemma run_frozen (s : AppState) (h : s.running = false) (l : List TickInput) :
    run s l = s := by
  induction l with
  | nil => rfl
  | cons a t ih =>
      have ha : loopStep s a = s := by simp [loopStep, h]
      show List.foldl loopStep (loopStep s a) t = s
      rw [ha]
      exact ih

/-! Claim theorems. -/

/-- Claim C6: for failure timestamps `ts` and a query time `now`, the crash
ledger count equals the number of entries with `now - t < CRASH_WINDOW`; the
pruned ledger holds only in-window entries (pruning as a side effect keeps
the ledger bounded: after recording, its length is the in-window count plus
one); and pruning is monotonic: an entry out of the window at `now` is not in
the pruned ledger at any later `now'`. -/
theorem crash_ledger_count_and_prune (now now' : Nat) (ts : List Nat)
    (h : now ≤ now') :
    countWithinWindow now ts =
      ts.countP (fun t => decide (now - t < CRASH_WINDOW)) ∧
    (∀ t ∈ pruneLedger now ts, now - t < CRASH_WINDOW) ∧
    (∀ t ∈ ts, ¬(now - t < CRASH_WINDOW) → t ∉ pruneLedger now' ts) ∧
    (recordFailure now ts).length = countWithinWindow now ts + 1 := by
  refine ⟨?_, ?_, ?_, ?_⟩
  · rw [countWithinWindow, pruneLedger, List.countP_eq_length_filter]
  · intro t ht
    rw [pruneLedger, List.mem_filter] at ht
    exact of_decide_eq_true ht.2
  · intro t _ hout hin
    rw [pruneLedger, List.mem_filter] at hin
    have := of_decide_eq_true hin.2
    omega
  · simp [recordFailure, countWithinWindow]

/-- Witness for C6 at a concrete ledger: failures at 50, 200 and 650 queried
at time 700 (entry 50 is out of the 600-second window) and re-queried at
time 900. -/
theorem crash_ledger_count_and_prune_witness :
    countWithinWindow 700 [50, 200, 650] =
      ([50, 200, 650] : List Nat).countP
        (fun t => decide (700 - t < CRASH_WINDOW)) ∧
    (∀ t ∈ pruneLedger 700 [50, 200, 650], 700 - t < CRASH_WINDOW) ∧
    (∀ t ∈ ([50, 200, 650] : List Nat), ¬(700 - t < CRASH_WINDOW) →
      t ∉ pruneLedger 900 [50, 200, 650]) ∧
    (recordFailure 700 [50, 200, 650]).length =
      countWithinWindow 700 [50, 200, 650] + 1 :=
  crash_ledger_count_and_prune 700 900 [50, 200, 650] (by decide)

/-- Claim C9: after a `log` call on a buffer of at most 200 entries the
buffer again holds at most 200 entries; when the bound is hit the oldest
entry (the head) is evicted; and the result is independent of the UI
notification outcome, so a failed notification never aborts the caller. -/
theorem log_buffer_bounded (logs : List LogEntry) (e : LogEntry)
    (n n' : Except String Unit) (h : logs.length ≤ 200) :
    (log logs e n).length ≤ 200 ∧
    (logs.length = 200 → log logs e n = logs.drop 1 ++ [e]) ∧
    (logs.length < 200 → log logs e n = logs ++ [e]) ∧
    log logs e n = log logs e n' := by
  have hlog : ∀ m : Except String Unit, log logs e m = logAppend logs e := by
    intro m; cases m <;> rfl
  refine ⟨?_, ?_, ?_, by rw [hlog, hlog]⟩
  · rw [hlog, logAppend]
    by_cases hb : 200 < (logs ++ [e]).length
    · simp only [if_pos hb]
      simp only [List.length_drop, List.length_append, List.length_singleton]
      omega
    · simp only [if_neg hb]
      simp only [List.length_append, List.length_singleton] at hb ⊢
      omega
  · intro h200
    rw [hlog, logAppend]
    have hb : 200 < (logs ++ [e]).length := by simp [h200]
    simp only [if_pos hb]
    exact List.drop_append_of_le_length (by omega)
  · intro hlt
    rw [hlog, logAppend]
    have hb : ¬200 < (logs ++ [e]).length := by simp; omega
    simp only [if_neg hb]

/-- Witness for C9 at a concrete one-entry buffer with a failing
notification. -/
theorem log_buffer_bounded_witness :
    (log [{ time := "0", msg := "a", level := "green" }]
        { time := "1", msg := "b", level := "red" }
        (Except.error "ui not ready")).length ≤ 200 ∧
    log [{ time := "0", msg := "a", level := "green" }]
        { time := "1", msg := "b", level := "red" }
        (Except.error "ui not ready") =
      log [{ time := "0", msg := "a", level := "green" }]
        { time := "1", msg := "b", level := "red" }
        (Except.ok ()) := by
  have h := log_buffer_bounded [{ time := "0", msg := "a", level := "green" }]
    { time := "1", msg := "b", level := "red" }
    (Except.error "ui not ready") (Except.ok ()) (by decide)
  exact ⟨h.1, h.2.2.2⟩

/-- Claim C10: `start_ffmpeg` with an empty YouTube key logs, spawns nothing
(the `procs` entry is untouched), reports failure before any command is
composed; and any command it does compose is `build_cmd` applied to a
nonempty key, so no launch command ever carries an empty credential. -/
theorem no_launch_with_empty_key (s : AppState) (url : String) (ok : Bool) :
    (s.config.yt_key = "" →
      (start_ffmpeg s url ok).2.ok = false ∧
      (start_ffmpeg s url ok).2.cmd = none ∧
      (start_ffmpeg s url ok).2.logMsg =
        "No YouTube key set - open Settings first" ∧
      (start_ffmpeg s url ok).1.ffmpeg = s.ffmpeg) ∧
    (∀ c, (start_ffmpeg s url ok).2.cmd = some c →
      s.config.yt_key ≠ "" ∧ c = build_cmd url s.config.yt_key) := by
  by_cases h : s.config.yt_key = ""
  · refine ⟨fun _ => ?_, fun c hc => ?_⟩
    · simp [start_ffmpeg, h]
    · simp [start_ffmpeg, h] at hc
  · refine ⟨fun h0 => absurd h0 h, fun c hc => ?_⟩
    cases ok <;> simp [start_ffmpeg, h] at hc <;> exact ⟨h, hc.symm⟩

/-- Witness for C10: a configured empty key at a concrete state spawns no
process and composes no command. -/
theorem no_launch_with_empty_key_witness :
    (start_ffmpeg (initState { kick_url := "u", yt_key := "" })
        "http://hls" true).2.ok = false ∧
    (start_ffmpeg (initState { kick_url := "u", yt_key := "" })
        "http://hls" true).2.cmd = none ∧
    (start_ffmpeg (initState { kick_url := "u", yt_key := "" })
        "http://hls" true).2.logMsg =
      "No YouTube key set - open Settings first" ∧
    (start_ffmpeg (initState { kick_url := "u", yt_key := "" })
        "http://hls" true).1.ffmpeg =
      (initState { kick_url := "u", yt_key := "" }).ffmpeg :=
  (no_launch_with_empty_key
    (initState { kick_url := "u", yt_key := "" }) "http://hls" true).1 rfl

/-- Claim C7: `stop()` succeeds from every state (any flags, any relay
handle including dead or absent), returns `"stopped"`, terminates any active
relay (no child process alive afterwards, given no orphan exists), clears
the live flag and the session timer, and is idempotent: a second `stop()`
returns the same state and `"stopped"` again. -/
theorem stop_succeeds_idempotent (s : AppState) (h : s.orphans = 0) :
    (API.stop s).2 = "stopped" ∧
    (API.stop s).1.running = false ∧
    (API.stop s).1.is_live = false ∧
    (API.stop s).1.start_time = none ∧
    aliveCount (API.stop s).1 = 0 ∧
    API.stop (API.stop s).1 = ((API.stop s).1, "stopped") := by
  refine ⟨rfl, rfl, rfl, rfl, ?_, rfl⟩
  simp [API.stop, stop_ffmpeg, aliveCount, h]

/-- A stopped-relay state used to witness C7: flags set, a dead handle. -/
def c7state : AppState :=
  { running := true
    is_live := true
    start_time := some 5
    restarts := 1
    crash_times := [2]
    config := { kick_url := "u", yt_key := "k" }
    ffmpeg := some ProcState.dead
    stream_start_time := some 5
    orphans := 0 }

/-- Witness for C7 at a state holding an already-dead relay handle. -/
theorem stop_succeeds_idempotent_witness :
    (API.stop c7state).2 = "stopped" ∧
    aliveCount (API.stop c7state).1 = 0 ∧
    API.stop (API.stop c7state).1 = ((API.stop c7state).1, "stopped") := by
  have h := stop_succeeds_idempotent c7state rfl
  exact ⟨h.1, h.2.2.2.2.1, h.2.2.2.2.2⟩

/-- Claim C2: on an iteration that detects a relay death whose recording
makes at least `MAX_RESTARTS` ledger entries inside the trailing
`CRASH_WINDOW`, the supervisor stops the relay, clears the live flag,
clears the running flag, `return`s (no sleep), and no further iteration
(hence no fourth death) is processed until an operator `start()`. -/
theorem crash_storm_halts (s : AppState) (inp : TickInput)
    (hlive : s.is_live = true)
    (hdead : (applyDeath s inp.dies).ffmpeg = some ProcState.dead)
    (hcount : MAX_RESTARTS ≤ (recordFailure inp.now s.crash_times).length) :
    (tick s inp).1.running = false ∧
    (tick s inp).1.is_live = false ∧
    (tick s inp).1.ffmpeg = none ∧
    (tick s inp).2.sleep = none ∧
    ∀ l, run (tick s inp).1 l = (tick s inp).1 := by
  have hdt : tick s inp = deadTick (applyDeath s inp.dies) inp := by
    simp [tick, hlive, hdead]
  rw [hdt]
  refine ⟨?_, ?_, ?_, ?_, fun l => run_frozen _ ?_ l⟩ <;>
    simp [deadTick, hcount, stop_ffmpeg]

/-- A live session with two recent ledger failures, used to witness C2. -/
def c2state : AppState :=
  { running := true
    is_live := true
    start_time := some 10
    restarts := 2
    crash_times := [200, 300]
    config := { kick_url := "u", yt_key := "k" }
    ffmpeg := some ProcState.alive
    stream_start_time := some 10
    orphans := 0 }

/-- The third relay death at time 400, used to witness C2. -/
def c2input : TickInput :=
  { now := 400, dies := true, probe := some "http://u", spawnOk := true }

/-- Witness for C2: failures at 200 and 300, a third death at 400 (all
within 600 s); a later live probe is never processed. -/
theorem crash_storm_halts_witness :
    (tick c2state c2input).1.running = false ∧
    (tick c2state c2input).1.is_live = false ∧
    run (tick c2state c2input).1
      [{ now := 410, dies := false, probe := some "http://v",
         spawnOk := true }] = (tick c2state c2input).1 := by
  have h := crash_storm_halts c2state c2input rfl (by decide) (by decide)
  exact ⟨h.1, h.2.1, h.2.2.2.2 _⟩

/-- Claim C4: a relay death on a session younger than
`MIN_STREAM_DURATION` that does not trip the crash-storm threshold stops
the relay and goes OFFLINE with no restart: `restarts` is unchanged, no
probe and no launch happen in the iteration, the loop survives and next
sleeps `OFFLINE_CHECK`. -/
theorem short_session_goes_offline (s : AppState) (inp : TickInput)
    (t0 : Nat)
    (hlive : s.is_live = true)
    (hdead : (applyDeath s inp.dies).ffmpeg = some ProcState.dead)
    (hnostorm : (recordFailure inp.now s.crash_times).length < MAX_RESTARTS)
    (hsst : s.stream_start_time = some t0)
    (ht0 : 0 < t0)
    (hshort : inp.now - t0 < MIN_STREAM_DURATION) :
    (tick s inp).1.is_live = false ∧
    (tick s inp).1.ffmpeg = none ∧
    (tick s inp).1.restarts = s.restarts ∧
    (tick s inp).1.running = s.running ∧
    (tick s inp).2.probed = false ∧
    (tick s inp).2.launched = false ∧
    (tick s inp).2.sleep = some OFFLINE_CHECK := by
  have hdt : tick s inp = deadTick (applyDeath s inp.dies) inp := by
    simp [tick, hlive, hdead]
  have hns : ¬ MAX_RESTARTS ≤
      (recordFailure inp.now s.crash_times).length := by omega
  have hss : shortSession s.stream_start_time inp.now = true := by
    rw [hsst]
    simp [shortSession, ht0, hshort]
  rw [hdt]
  refine ⟨?_, ?_, ?_, ?_, ?_, ?_, ?_⟩ <;>
    simp [deadTick, hns, hss, stop_ffmpeg]

/-- A 60-second-old session whose relay dies, used to witness C4. -/
def c4state : AppState :=
  { running := true
    is_live := true
    start_time := some 1000
    restarts := 0
    crash_times := []
    config := { kick_url := "u", yt_key := "k" }
    ffmpeg := some ProcState.alive
    stream_start_time := some 1000
    orphans := 0 }

/-- The death 60 s after session start, used to witness C4. -/
def c4input : TickInput :=
  { now := 1060, dies := true, probe := some "http://u", spawnOk := true }

/-- Witness for C4: the relay dies 60 s into the session. -/
theorem short_session_goes_offline_witness :
    (tick c4state c4input).1.is_live = false ∧
    (tick c4state c4input).1.restarts = 0 ∧
    (tick c4state c4input).2.launched = false ∧
    (tick c4state c4input).2.sleep = some OFFLINE_CHECK := by
  have h := short_session_goes_offline c4state c4input 1000 rfl (by decide)
    (by decide) rfl (by decide) (by decide)
  exact ⟨h.1, h.2.2.1, h.2.2.2.2.2.1, h.2.2.2.2.2.2⟩

/-- Claim C3 counterexample: a freshly started supervisor sees a live probe
but `Popen` raises `FileNotFoundError` (ffmpeg missing).  After that
iteration `running` is false and a later live probe leaves the state
untouched: the loop terminated instead of continuing to poll, refuting the
claim that the supervisor loop does not terminate. -/
theorem ffmpeg_missing_cex :
    (run (API.start (initState { kick_url := "u", yt_key := "k" })).1
      [{ now := 100, dies := false, probe := some "http://u",
         spawnOk := false }]).running = false ∧
    run (run (API.start (initState { kick_url := "u", yt_key := "k" })).1
      [{ now := 100, dies := false, probe := some "http://u",
         spawnOk := false }])
      [{ now := 200, dies := false, probe := some "http://v",
         spawnOk := true }] =
    run (API.start (initState { kick_url := "u", yt_key := "k" })).1
      [{ now := 100, dies := false, probe := some "http://u",
         spawnOk := false }] := by
  decide

/-- Claim C3 amended: a missing ffmpeg binary (spawn failure) aborts the
current start attempt inside `start_ffmpeg` — no exception escapes, an
operator-visible message is logged, no process handle is created — but the
code also clears the `running` flag, so the supervisor loop terminates
rather than continuing to poll for the source. -/
theorem ffmpeg_missing_aborts_attempt_and_loop (s : AppState) (url : String)
    (hk : s.config.yt_key ≠ "") :
    (start_ffmpeg s url false).2.ok = false ∧
    (start_ffmpeg s url false).2.logMsg =
      "FFmpeg not found! Install it and add to PATH." ∧
    (start_ffmpeg s url false).1.ffmpeg = s.ffmpeg ∧
    (start_ffmpeg s url false).1.running = false ∧
    ∀ l, run (start_ffmpeg s url false).1 l = (start_ffmpeg s url false).1 := by
  have h1 : start_ffmpeg s url false =
      ({ s with running := false },
       { ok := false, cmd := some (build_cmd url s.config.yt_key),
         logMsg := "FFmpeg not found! Install it and add to PATH." }) := by
    simp [start_ffmpeg, hk]
  rw [h1]
  exact ⟨rfl, rfl, rfl, rfl, fun l => run_frozen _ rfl l⟩

/-- Witness for the amended C3 at a concrete configured state. -/
theorem ffmpeg_missing_aborts_attempt_and_loop_witness :
    (start_ffmpeg (initState { kick_url := "u", yt_key := "k" })
        "http://u" false).2.ok = false ∧
    (start_ffmpeg (initState { kick_url := "u", yt_key := "k" })
        "http://u" false).1.running = false ∧
    run (start_ffmpeg (initState { kick_url := "u", yt_key := "k" })
        "http://u" false).1
      [{ now := 200, dies := false, probe := some "http://v",
         spawnOk := true }] =
    (start_ffmpeg (initState { kick_url := "u", yt_key := "k" })
        "http://u" false).1 := by
  have h := ffmpeg_missing_aborts_attempt_and_loop
    (initState { kick_url := "u", yt_key := "k" }) "http://u" (by decide)
  exact ⟨h.1, h.2.2.2.1, h.2.2.2.2 _⟩

/-- Claim C1 counterexample: from a freshly started supervisor configured
with an empty destination key, one live-probe iteration leaves the phase
LIVE (`is_live` true) while the aborted launch leaves no relay process
alive, refuting "a relay process is alive iff the phase is LIVE" over
launch-failure outcomes. -/
theorem relay_alive_iff_live_cex :
    (run (API.start (initState { kick_url := "u", yt_key := "" })).1
      [{ now := 100, dies := false, probe := some "http://u",
         spawnOk := true }]).is_live = true ∧
    aliveCount (run (API.start (initState { kick_url := "u", yt_key := "" })).1
      [{ now := 100, dies := false, probe := some "http://u",
         spawnOk := true }]) = 0 := by
  decide

/-- A healthy live session at a refresh boundary, for the C5 refutation:
session started at 100, queried at 640 (elapsed 540). -/
def c5state : AppState :=
  { running := true
    is_live := true
    start_time := some 100
    restarts := 0
    crash_times := []
    config := { kick_url := "u", yt_key := "k" }
    ffmpeg := some ProcState.alive
    stream_start_time := some 100
    orphans := 0 }

/-- The refresh-boundary iteration environment for the C5 refutation. -/
def c5input : TickInput :=
  { now := 640, dies := false, probe := some "http://u2", spawnOk := true }

/-- Claim C5 counterexample: the URL-refresh relaunch at `now = 640` on a
session started at 100 (elapsed 540, a refresh boundary) launches a new
relay but leaves `start_time` at 100 instead of updating it to the current
time, refuting the claim for the proactive-refresh relaunch. -/
theorem relay_started_at_cex :
    (tick c5state c5input).2.launched = true ∧
    (tick c5state c5input).1.ffmpeg = some ProcState.alive ∧
    (tick c5state c5input).1.start_time = some 100 ∧
    ¬ (tick c5state c5input).1.start_time = some 640 := by
  decide

/-- Unfolding of `tick` as a dispatch on the post-death state. -/
lemma tick_eq (s : AppState) (inp : TickInput) :
    tick s inp =
      (if (applyDeath s inp.dies).is_live &&
          (applyDeath s inp.dies).ffmpeg.isSome then
        (if (applyDeath s inp.dies).ffmpeg = some ProcState.alive then
          liveHealthyTick (applyDeath s inp.dies) inp
        else deadTick (applyDeath s inp.dies) inp)
      else probeTick (applyDeath s inp.dies) inp) := rfl

/-- The healthy-relay branch never touches `start_time`. -/
lemma liveHealthyTick_start_time (s : AppState) (inp : TickInput) :
    (liveHealthyTick s inp).1.start_time = s.start_time := by
  simp only [liveHealthyTick]
  cases hp : inp.probe <;> split <;> simp [stop_ffmpeg]

/-- The dead-relay branch never touches `start_time`. -/
lemma deadTick_start_time (s : AppState) (inp : TickInput) :
    (deadTick s inp).1.start_time = s.start_time := by
  simp only [deadTick]
  split_ifs <;> try rfl
  cases hp : inp.probe <;> simp [stop_ffmpeg]

/-- The healthy-relay branch never touches `restarts`. -/
lemma liveHealthyTick_restarts (s : AppState) (inp : TickInput) :
    (liveHealthyTick s inp).1.restarts = s.restarts := by
  simp only [liveHealthyTick]
  cases hp : inp.probe <;> split <;> simp [stop_ffmpeg]

/-- The dead-relay branch never decreases `restarts` (it keeps it, or
increments it on a genuine restart). -/
lemma deadTick_restarts_ge (s : AppState) (inp : TickInput) :
    s.restarts ≤ (deadTick s inp).1.restarts := by
  simp only [deadTick]
  split_ifs <;> try exact Nat.le_refl _
  cases hp : inp.probe <;> simp [stop_ffmpeg]

/-- The healthy-relay branch never touches `config`. -/
lemma liveHealthyTick_config (s : AppState) (inp : TickInput) :
    (liveHealthyTick s inp).1.config = s.config := by
  simp only [liveHealthyTick]
  cases hp : inp.probe <;> split <;> simp [stop_ffmpeg]

/-- The dead-relay branch never touches `config`. -/
lemma deadTick_config (s : AppState) (inp : TickInput) :
    (deadTick s inp).1.config = s.config := by
  simp only [deadTick]
  split_ifs <;> try rfl
  cases hp : inp.probe <;> simp [stop_ffmpeg]

/-- The probe branch never touches `config`. -/
lemma probeTick_config (s : AppState) (inp : TickInput) :
    (probeTick s inp).1.config = s.config := by
  simp only [probeTick]
  cases hp : inp.probe <;> cases hlv : s.is_live <;> simp [stop_ffmpeg]

/-- No loop iteration touches the configuration. -/
lemma tick_config (s : AppState) (inp : TickInput) :
    (tick s inp).1.config = s.config := by
  rw [tick_eq]
  split
  · split
    · rw [liveHealthyTick_config, applyDeath_config]
    · rw [deadTick_config, applyDeath_config]
  · rw [probeTick_config, applyDeath_config]

/-- Claim C5 amended: across every loop iteration, `start_time` is set to
the current time exactly on a session-start iteration (source transitions
from not-live to live), cleared exactly on a source-end iteration, and left
untouched everywhere else — in particular the URL-refresh relaunch and the
post-crash relaunch do not update it. -/
theorem start_time_set_only_at_session_boundary (s : AppState)
    (inp : TickInput) :
    (tick s inp).1.start_time =
      (if isSessionStart s inp = true then some inp.now
       else if isSourceEnd s inp = true then none
       else s.start_time) := by
  rw [tick_eq]
  by_cases hb : ((applyDeath s inp.dies).is_live &&
      (applyDeath s inp.dies).ffmpeg.isSome) = true
  · rw [if_pos hb]
    rw [Bool.and_eq_true] at hb
    have hl : s.is_live = true := by
      rw [← applyDeath_is_live s inp.dies]; exact hb.1
    have hsm : s.ffmpeg.isSome = true := by
      rw [← applyDeath_ffmpeg_isSome s inp.dies]; exact hb.2
    have h1 : isSessionStart s inp = false := by simp [isSessionStart, hl]
    have h2 : isSourceEnd s inp = false := by
      obtain ⟨v, hv⟩ := Option.isSome_iff_exists.mp hsm
      simp [isSourceEnd, hv]
    rw [h1, h2]
    simp only [Bool.false_eq_true, if_false]
    split
    · rw [liveHealthyTick_start_time, applyDeath_start_time]
    · rw [deadTick_start_time, applyDeath_start_time]
  · rw [if_neg hb]
    have hno : s.is_live = true → s.ffmpeg = none := by
      intro h
      cases hf : s.ffmpeg with
      | none => rfl
      | some p => exact absurd (by simp [h, hf]) hb
    cases hlv : s.is_live <;> cases hp : inp.probe
    · simp [probeTick, hp, hlv, isSessionStart, isSourceEnd]
    · simp [probeTick, hp, hlv, isSessionStart, isSourceEnd]
    · have hfn := hno hlv
      simp [probeTick, hp, hlv, isSessionStart, isSourceEnd, stop_ffmpeg,
        hfn]
    · have hfn := hno hlv
      simp [probeTick, hp, hlv, isSessionStart, isSourceEnd, hfn]

/-- Claim C8: an iteration resets `restarts` to 0 exactly when a new
broadcast session begins (not-live source probes live, and a relay launch is
attempted in that same iteration); every other iteration keeps `restarts` at
least as large as before, and `stop()` never touches it. -/
theorem restarts_reset_only_at_session_start (s : AppState)
    (inp : TickInput) :
    (isSessionStart s inp = true →
      (tick s inp).1.restarts = 0 ∧ (tick s inp).2.launched = true) ∧
    (isSessionStart s inp = false →
      s.restarts ≤ (tick s inp).1.restarts) ∧
    (API.stop s).1.restarts = s.restarts := by
  refine ⟨?_, ?_, rfl⟩
  · intro hss
    rw [isSessionStart, Bool.and_eq_true, Bool.not_eq_true'] at hss
    obtain ⟨hl, hp⟩ := hss
    obtain ⟨u, hu⟩ := Option.isSome_iff_exists.mp hp
    rw [tick_eq]
    have hbf : ¬(((applyDeath s inp.dies).is_live &&
        (applyDeath s inp.dies).ffmpeg.isSome) = true) := by simp [hl]
    rw [if_neg hbf]
    simp [probeTick, hu, hl]
  · intro hns
    rw [tick_eq]
    by_cases hb : ((applyDeath s inp.dies).is_live &&
        (applyDeath s inp.dies).ffmpeg.isSome) = true
    · rw [if_pos hb]
      split
      · rw [liveHealthyTick_restarts, applyDeath_restarts]
      · calc s.restarts = (applyDeath s inp.dies).restarts :=
              (applyDeath_restarts s inp.dies).symm
          _ ≤ _ := deadTick_restarts_ge _ _
    · rw [if_neg hb]
      cases hlv : s.is_live <;> cases hp : inp.probe
      · simp [probeTick, hp, hlv]
      · simp [isSessionStart, hlv, hp] at hns
      · simp [probeTick, hp, hlv, stop_ffmpeg]
      · simp [probeTick, hp, hlv]

/-- A freshly started supervisor iteration environment for the C8 witness:
a live probe at time 50 while not live. -/
def c8input : TickInput :=
  { now := 50, dies := false, probe := some "http://u", spawnOk := true }

/-- A live session with one prior restart, for the C8 witness. -/
def c8stateB : AppState :=
  { running := true
    is_live := true
    start_time := some 10
    restarts := 1
    crash_times := []
    config := { kick_url := "u", yt_key := "k" }
    ffmpeg := some ProcState.alive
    stream_start_time := some 10
    orphans := 0 }

/-- A genuine crash (490 s into the session) for the C8 witness. -/
def c8inputB : TickInput :=
  { now := 500, dies := true, probe := some "http://u", spawnOk := true }

/-- Witness for C8: a session-start iteration resets `restarts` to 0, and a
genuine-crash iteration does not reset it. -/
theorem restarts_reset_only_at_session_start_witness :
    (tick (API.start (initState { kick_url := "u", yt_key := "k" })).1
      c8input).1.restarts = 0 ∧
    c8stateB.restarts ≤ (tick c8stateB c8inputB).1.restarts :=
  ⟨((restarts_reset_only_at_session_start
      (API.start (initState { kick_url := "u", yt_key := "k" })).1
      c8input).1 (by decide)).1,
   (restarts_reset_only_at_session_start c8stateB c8inputB).2.1 (by decide)⟩

/-- The unconditional process-handle invariant: no orphaned process exists,
an alive dictionary handle implies the LIVE phase, and in any non-LIVE phase
the dictionary is empty. -/
def handleInv (s : AppState) : Prop :=
  s.orphans = 0 ∧ (s.ffmpeg = some ProcState.alive → s.is_live = true) ∧
    (s.is_live = false → s.ffmpeg = none)

/-- The LIVE-phase half of the alive-iff-live property: it holds only when
launches succeed, so it is tracked separately. -/
def liveStrong (s : AppState) : Prop :=
  s.is_live = true → s.ffmpeg = some ProcState.alive

lemma handleInv_applyDeath (s : AppState) (d : Bool) (h : handleInv s) :
    handleInv (applyDeath s d) := by
  obtain ⟨h1, h2, h3⟩ := h
  cases d
  · simpa [applyDeath] using ⟨h1, h2, h3⟩
  · refine ⟨by simp [applyDeath, h1], ?_, ?_⟩
    · intro hx
      cases hf : s.ffmpeg <;> simp [applyDeath, hf] at hx
    · intro hl
      rw [applyDeath_is_live] at hl
      simp [applyDeath, h3 hl]

/-- A successful spawn with a nonempty key installs an alive handle. -/
lemma start_ffmpeg_spawn_ok (s : AppState) (u : String)
    (hk : s.config.yt_key ≠ "") :
    (start_ffmpeg s u true).1.ffmpeg = some ProcState.alive := by
  simp [start_ffmpeg, hk]

lemma handleInv_start (s : AppState) (u : String) (ok : Bool)
    (ho : s.orphans = 0) (hna : s.ffmpeg ≠ some ProcState.alive)
    (hl : s.is_live = true) :
    handleInv (start_ffmpeg s u ok).1 := by
  by_cases hk : s.config.yt_key = "" <;> cases ok <;>
    simp [start_ffmpeg, hk, handleInv, ho, hna, hl]

lemma handleInv_liveHealthy (s : AppState) (inp : TickInput)
    (h : handleInv s) (hl : s.is_live = true) :
    handleInv (liveHealthyTick s inp).1 := by
  simp only [liveHealthyTick]
  cases hp : inp.probe
  · split <;> exact h
  · split
    · exact handleInv_start _ _ _
        (by simpa [stop_ffmpeg] using h.1)
        (by simp [stop_ffmpeg])
        (by simpa [stop_ffmpeg] using hl)
    · exact h

lemma handleInv_dead (s : AppState) (inp : TickInput) (h : handleInv s)
    (hl : s.is_live = true) (hna : s.ffmpeg ≠ some ProcState.alive) :
    handleInv (deadTick s inp).1 := by
  simp only [deadTick]
  split_ifs
  · exact ⟨h.1, by simp [stop_ffmpeg], by simp [stop_ffmpeg]⟩
  · exact ⟨h.1, by simp [stop_ffmpeg], by simp [stop_ffmpeg]⟩
  · cases hp : inp.probe
    · exact ⟨h.1, by simp [stop_ffmpeg], by simp [stop_ffmpeg]⟩
    · exact handleInv_start _ _ _ h.1 hna hl

lemma handleInv_probe (s : AppState) (inp : TickInput) (h : handleInv s) :
    handleInv (probeTick s inp).1 := by
  simp only [probeTick]
  cases hp : inp.probe <;> cases hlv : s.is_live
  · exact h
  · exact ⟨h.1, by simp [stop_ffmpeg], by simp [stop_ffmpeg]⟩
  · have hfn : s.ffmpeg = none := h.2.2 hlv
    exact handleInv_start _ _ _ h.1 (by simp [hfn]) rfl
  · exact h

lemma handleInv_tick (s : AppState) (inp : TickInput) (h : handleInv s) :
    handleInv (tick s inp).1 := by
  rw [tick_eq]
  have h' := handleInv_applyDeath s inp.dies h
  by_cases hb : ((applyDeath s inp.dies).is_live &&
      (applyDeath s inp.dies).ffmpeg.isSome) = true
  · rw [if_pos hb]
    rw [Bool.and_eq_true] at hb
    by_cases ha : (applyDeath s inp.dies).ffmpeg = some ProcState.alive
    · rw [if_pos ha]
      exact handleInv_liveHealthy _ _ h' hb.1
    · rw [if_neg ha]
      exact handleInv_dead _ _ h' hb.1 ha
  · rw [if_neg hb]
    exact handleInv_probe _ _ h'

lemma handleInv_loopStep (s : AppState) (inp : TickInput)
    (h : handleInv s) : handleInv (loopStep s inp) := by
  unfold loopStep
  split
  · exact handleInv_tick _ _ h
  · exact h

lemma handleInv_run (s : AppState) (l : List TickInput) (h : handleInv s) :
    handleInv (run s l) := by
  induction l generalizing s with
  | nil => exact h
  | cons a t ih => exact ih _ (handleInv_loopStep _ _ h)

lemma strong_tick (s : AppState) (inp : TickInput)
    (hs : liveStrong s) (hk : s.config.yt_key ≠ "")
    (hsp : inp.spawnOk = true) :
    liveStrong (tick s inp).1 := by
  rw [tick_eq]
  by_cases hb : ((applyDeath s inp.dies).is_live &&
      (applyDeath s inp.dies).ffmpeg.isSome) = true
  · rw [if_pos hb]
    rw [Bool.and_eq_true] at hb
    by_cases ha : (applyDeath s inp.dies).ffmpeg = some ProcState.alive
    · rw [if_pos ha]
      simp only [liveHealthyTick]
      cases hp : inp.probe
      · split <;> intro _ <;> exact ha
      · split
        · intro _
          rw [hsp]
          exact start_ffmpeg_spawn_ok _ _
            (by simpa [stop_ffmpeg, applyDeath_config] using hk)
        · intro _; exact ha
    · rw [if_neg ha]
      simp only [deadTick]
      split_ifs
      · intro hx; simp at hx
      · intro hx; simp at hx
      · cases hp : inp.probe
        · intro hx; simp at hx
        · intro _
          rw [hsp]
          exact start_ffmpeg_spawn_ok _ _
            (by simpa [applyDeath_config] using hk)
  · rw [if_neg hb]
    simp only [probeTick]
    cases hp : inp.probe <;> cases hlv : s.is_live
    · simp [liveStrong, hlv]
    · simp [liveStrong, hlv]
    · simp only [applyDeath_is_live, hlv]
      intro _
      rw [hsp]
      exact start_ffmpeg_spawn_ok _ _ (by simpa [applyDeath_config] using hk)
    · simp [hlv, hs hlv] at hb

/-- Along any run with a nonempty key and only successful spawns, the handle
invariant, the LIVE-phase strong half, and the configuration are preserved. -/
lemma invariants_run (cfg : Config) (l : List TickInput) :
    ∀ s : AppState, handleInv s → liveStrong s → s.config = cfg →
      cfg.yt_key ≠ "" → (∀ i ∈ l, i.spawnOk = true) →
      handleInv (run s l) ∧ liveStrong (run s l) ∧ (run s l).config = cfg := by
  induction l with
  | nil => intro s h hs hc _ _; exact ⟨h, hs, hc⟩
  | cons a t ih =>
      intro s h hs hc hk hsp
      have hspa : a.spawnOk = true := hsp a (List.mem_cons_self a t)
      have hrest : ∀ i ∈ t, i.spawnOk = true := fun i hi =>
        hsp i (List.mem_cons_of_mem a hi)
      by_cases hr : s.running = true
      · have h1 : loopStep s a = (tick s a).1 := by simp [loopStep, hr]
        refine ih (loopStep s a) ?_ ?_ ?_ hk hrest
        · rw [h1]; exact handleInv_tick _ _ h
        · rw [h1]
          exact strong_tick _ _ hs (by rw [hc]; exact hk) hspa
        · rw [h1, tick_config, hc]
      · have h1 : loopStep s a = s := by simp [loopStep, hr]
        refine ih (loopStep s a) ?_ ?_ ?_ hk hrest <;> rw [h1] <;> assumption

/-- Claim C1 amended: over every sequence of probe, death and launch
outcomes processed from a fresh `start()`, at most one relay process is ever
alive and no relay is alive in any non-LIVE phase; the full "alive iff LIVE"
equivalence additionally requires every launch attempt to succeed (nonempty
key and no spawn failure), since a failed launch leaves the phase LIVE with
no process (see the counterexample). -/
theorem relay_alive_iff_live_amended (cfg : Config) (l : List TickInput) :
    aliveCount (run (API.start (initState cfg)).1 l) ≤ 1 ∧
    ((run (API.start (initState cfg)).1 l).is_live = false →
      aliveCount (run (API.start (initState cfg)).1 l) = 0) ∧
    (cfg.yt_key ≠ "" → (∀ i ∈ l, i.spawnOk = true) →
      ((run (API.start (initState cfg)).1 l).is_live = true ↔
        aliveCount (run (API.start (initState cfg)).1 l) = 1)) := by
  have h0 : handleInv (API.start (initState cfg)).1 := by
    refine ⟨rfl, ?_, fun _ => rfl⟩
    intro hx
    simp [API.start, initState] at hx
  obtain ⟨ho, ha, hn⟩ := handleInv_run _ l h0
  refine ⟨?_, ?_, ?_⟩
  · simp only [aliveCount, ho]
    split <;> simp
  · intro hl
    simp [aliveCount, hn hl, ho]
  · intro hk hsp
    have hs0 : liveStrong (API.start (initState cfg)).1 := by
      intro hx
      simp [API.start, initState] at hx
    have hg := invariants_run cfg l (API.start (initState cfg)).1 h0 hs0
      rfl hk hsp
    constructor
    · intro hl
      simp [aliveCount, hg.2.1 hl, ho]
    · intro hc
      cases hlv : (run (API.start (initState cfg)).1 l).is_live
      · exfalso
        simp [aliveCount, hn hlv, ho] at hc
      · rfl

/-- Witness for the amended C1: a fresh start, one successful session-start
iteration; the run ends LIVE with exactly one alive relay. -/
theorem relay_alive_iff_live_amended_witness :
    ((run (API.start (initState { kick_url := "u", yt_key := "k" })).1
      [{ now := 100, dies := false, probe := some "http://u",
         spawnOk := true }]).is_live = true ↔
      aliveCount (run (API.start
        (initState { kick_url := "u", yt_key := "k" })).1
        [{ now := 100, dies := false, probe := some "http://u",
           spawnOk := true }]) = 1) :=
  (relay_alive_iff_live_amended { kick_url := "u", yt_key := "k" }
    [{ now := 100, dies := false, probe := some "http://u",
       spawnOk := true }]).2.2 (by decide) (by decide)

end Restream
